import Mathlib

/-!
Verification development for the AgentforceChatHost repository.

Shallow embedding of the two core subsystems:
  * the activity batching/upsert engine
    (src/unnamed/part_000, the agentforceActivityTracker LWC), and
  * the chat session protocol client
    (src/force-app/main/default/lwc/agentforceChatHost/agentforceChatHost.js).

JavaScript conventions are embedded explicitly:
  * nullable fields become Option types; JS truthiness tests on strings
    (null or the empty string is falsy) and on numbers (null or 0 is falsy)
    are embedded by dedicated helpers;
  * Date.now() becomes an explicit Nat argument threaded through each
    operation; setTimeout becomes a stored scheduled fire time, a cleared
    timer becomes none;
  * try/catch around a fallible operation becomes a match on an Option or
    Except result, the catch branch being the none/error arm;
  * JSON.parse of externally supplied text is an oracle parameter
    (a function String -> Option _), since its implementation is a
    platform primitive, not code of this repository;
  * await-ed calls are sequenced synchronously, matching the single
    cooperative turn per event described by the spec.
-/

/-- JS truthiness for a nullable string: null and the empty string are falsy. -/
def strFalsy : Option String → Bool
  | none => true
  | some s => s == ""

/-- JS `x || dflt` for a nullable number: null and 0 fall back to the default. -/
def natOrElse : Option Nat → Nat → Nat
  | none, dflt => dflt
  | some n, dflt => if n == 0 then dflt else n

/-- Structural embedding of JS String.prototype.startsWith for this model
(kernel-reducible, unlike the iterator-based library version). -/
def strStartsWith (s pre : String) : Bool :=
  s.data.take pre.data.length == pre.data

/-- Structural embedding of JS String.prototype.substring(n) (drop first n chars). -/
def strDrop (s : String) (n : Nat) : String :=
  String.mk (s.data.drop n)

/-- Structural embedding of JS String.prototype.trim (strip whitespace at both ends). -/
def strTrim (s : String) : String :=
  String.mk (((s.data.dropWhile Char.isWhitespace).reverse.dropWhile Char.isWhitespace).reverse)

namespace Tracker

/-- The @api capability flags and identity of the activity tracker component
(src/unnamed/part_000 lines 13-21), plus the imported salesforce user Id. -/
structure Config where
  trackSessionLifecycle : Bool
  trackLinkClicks : Bool
  trackFormSubmissions : Bool
  trackMessageCount : Bool
  trackTimeInChat : Bool
  componentName : String
  userId : Option String
deriving DecidableEq

/-- One entry of the in-memory event log (src/unnamed/part_000 lines 212-225).
The source stores `JSON.parse(data)` when it parses and the raw string
otherwise; no claim inspects the parsed shape, so the raw payload is kept. -/
structure EventEntry where
  type : String
  timestamp : Nat
  source : String
  data : Option String
deriving DecidableEq

/-- The mutable instance state of the tracker (src/unnamed/part_000 lines 24-31).
upsertTimeout stores the scheduled fire time of the pending setTimeout
(none when no live timer). -/
structure State where
  currentSessionId : Option String
  sessionStartTime : Option Nat
  messageCount : Nat
  eventLog : List EventEntry
  upsertTimeout : Option Nat
  lastUpsertTime : Option Nat
  isSessionActive : Bool
deriving DecidableEq

/-- Initial field values of the component (src/unnamed/part_000 lines 24-31). -/
def initialState : State :=
  { currentSessionId := none
    sessionStartTime := none
    messageCount := 0
    eventLog := []
    upsertTimeout := none
    lastUpsertTime := none
    isSessionActive := false }

/-- The wrapper handed to the Apex upsert (src/unnamed/part_000 lines 280-292).
eventData is the serialized event log; the serialization to a JSON string is
kept as the list itself (JSON.stringify is injective on it). -/
structure ActivityWrapper where
  sessionId : Option String
  eventType : String
  timestamp : Option Nat
  eventSource : String
  eventData : List EventEntry
  messageCount : Option Nat
  timeInChat : Option Nat
  userId : Option String
  contactId : Option String
  sessionEndTime : Option Nat
  eventCount : Nat
deriving DecidableEq

/-- Which code path issued an upsert call (instrumentation; does not affect
the computed state or wrapper). -/
inductive FlushKind where
  | reset
  | sessionEnd
  | countTrigger
  | timeTrigger
  | visibility
  | teardown
deriving DecidableEq

/-- One upsert call as observed by the persistence collaborator, with
instrumentation recording when it happened and the last-upsert time of the
state that issued it. -/
structure FlushEvt where
  kind : FlushKind
  time : Nat
  lastUpsertBefore : Option Nat
  success : Bool
  wrapper : ActivityWrapper
deriving DecidableEq

/-- An LMS bus message (src/unnamed/part_000 line 111, published by
publishToChannel of agentforceChatHost.js lines 1116-1121). -/
structure BusMessage where
  sessionId : String
  eventType : String
  timestamp : Nat
  data : Option String
deriving DecidableEq

/-- shouldTrackEvent (src/unnamed/part_000 lines 173-188). -/
def shouldTrackEvent (cfg : Config) (eventType : String) : Bool :=
  if eventType == "SESSION_STARTED" || eventType == "SESSION_ENDED" then
    cfg.trackSessionLifecycle
  else if eventType == "LINK_CLICK" then cfg.trackLinkClicks
  else if eventType == "FORM_SUBMIT" then cfg.trackFormSubmissions
  else if eventType == "MESSAGE_SENT" || eventType == "MESSAGE_RECEIVED" then
    cfg.trackMessageCount
  else true

/-- The eventTypeMap lookup with its `|| eventType` fallback
(src/unnamed/part_000 lines 203-213). -/
def eventTypeMap (eventType : String) : String :=
  if eventType == "SESSION_STARTED" then "Session_Started"
  else if eventType == "SESSION_ENDED" then "Session_Ended"
  else if eventType == "LINK_CLICK" then "Link_Click"
  else if eventType == "FORM_SUBMIT" then "Form_Submit"
  else if eventType == "MESSAGE_SENT" then "Message_Sent"
  else if eventType == "MESSAGE_RECEIVED" then "Message_Received"
  else eventType

/-- addEventToLog (src/unnamed/part_000 lines 196-234): bump messageCount for
the two message kinds, then append the mapped entry. -/
def addEventToLog (cfg : Config) (s : State) (eventType : String) (ts : Nat)
    (data : Option String) : State :=
  let s1 :=
    if eventType == "MESSAGE_SENT" || eventType == "MESSAGE_RECEIVED" then
      { s with messageCount := s.messageCount + 1 }
    else s
  let entry : EventEntry :=
    { type := eventTypeMap eventType
      timestamp := ts
      source := cfg.componentName
      data := data }
  { s1 with eventLog := s1.eventLog ++ [entry] }

/-- buildSessionActivityWrapper (src/unnamed/part_000 lines 271-293).
`now` is the Date.now() read at the top of the function. The JS guard
`this.trackTimeInChat && this.sessionStartTime` treats a 0 timestamp as
falsy, hence the explicit st != 0 test. -/
def buildSessionActivityWrapper (cfg : Config) (s : State) (isSessionEnd : Bool)
    (now : Nat) : ActivityWrapper :=
  let timeInChat : Option Nat :=
    match s.sessionStartTime with
    | some st => if cfg.trackTimeInChat ∧ st ≠ 0 then some ((now - st) / 1000) else none
    | none => none
  { sessionId := s.currentSessionId
    eventType := if isSessionEnd then "Session_Ended" else "Session_Updated"
    timestamp := s.sessionStartTime
    eventSource := cfg.componentName
    eventData := s.eventLog
    messageCount := if cfg.trackMessageCount then some s.messageCount else none
    timeInChat := timeInChat
    userId := cfg.userId
    contactId := none
    sessionEndTime := if isSessionEnd then some now else none
    eventCount := s.eventLog.length }

/-- upsertSessionRecord (src/unnamed/part_000 lines 299-328): early return when
the session id is falsy or the log is empty (before touching the timer),
otherwise clear the pending timer, build the wrapper and call the Apex upsert.
`succ` is the outcome of the awaited Apex call: on success lastUpsertTime is
set to Date.now(); on failure the state (and in particular the event log) is
left for retry. The upsert call itself happens in both cases. -/
def upsertSessionRecord (cfg : Config) (s : State) (isSessionEnd : Bool)
    (now : Nat) (succ : Bool) (kind : FlushKind) : State × Option FlushEvt :=
  if strFalsy s.currentSessionId || s.eventLog.length == 0 then (s, none)
  else
    let s1 : State := { s with upsertTimeout := none }
    let w := buildSessionActivityWrapper cfg s1 isSessionEnd now
    let f : FlushEvt :=
      { kind := kind
        time := now
        lastUpsertBefore := s1.lastUpsertTime
        success := succ
        wrapper := w }
    (if succ then { s1 with lastUpsertTime := some now } else s1, some f)

/-- resetSessionState (src/unnamed/part_000 lines 149-166): flush the previous
session if it has pending events, then reinitialize every per-session field
and cancel the pending timer. `sid`/`ts` are the new session id and start
timestamp from the bus message, `now` is Date.now(). -/
def resetSessionState (cfg : Config) (s : State) (sid : String) (ts : Nat)
    (now : Nat) (succ : Bool) : State × Option FlushEvt :=
  let prev :=
    if strFalsy s.currentSessionId = false ∧ s.eventLog ≠ [] then
      upsertSessionRecord cfg s true now succ FlushKind.reset
    else (s, none)
  ({ currentSessionId := some sid
     sessionStartTime := some ts
     messageCount := 0
     eventLog := []
     upsertTimeout := none
     lastUpsertTime := some now
     isSessionActive := true }, prev.2)

/-- checkUpsertTriggers (src/unnamed/part_000 lines 239-264): the count trigger
compares the whole eventLog length against the threshold 5; otherwise the
pending timer is cleared and re-armed for the remainder of the 30000 ms
window measured from `this.lastUpsertTime || Date.now()`. A timer whose
remaining time would be non-positive is not re-armed (the stale cleared
handle can never fire, embedded as none). -/
def checkUpsertTriggers (cfg : Config) (s : State) (now : Nat) (succ : Bool) :
    State × Option FlushEvt :=
  let cnt := s.eventLog.length
  let timeSince := now - natOrElse s.lastUpsertTime now
  if 5 ≤ cnt then upsertSessionRecord cfg s false now succ FlushKind.countTrigger
  else
    let remaining := 30000 - timeSince
    if 0 < remaining then ({ s with upsertTimeout := some (now + remaining) }, none)
    else ({ s with upsertTimeout := none }, none)

/-- handleMessage (src/unnamed/part_000 lines 110-142): reset on
SESSION_STARTED, drop untracked kinds, append, terminal upsert on
SESSION_ENDED, otherwise run the trigger check. -/
def handleMessage (cfg : Config) (s : State) (m : BusMessage) (now : Nat)
    (succ : Bool) : State × List FlushEvt :=
  let r0 :=
    if m.eventType == "SESSION_STARTED" then
      resetSessionState cfg s m.sessionId m.timestamp now succ
    else (s, none)
  let s1 := r0.1
  if shouldTrackEvent cfg m.eventType = false then (s1, r0.2.toList)
  else
    let s2 := addEventToLog cfg s1 m.eventType m.timestamp m.data
    if m.eventType == "SESSION_ENDED" then
      let s3 := { s2 with isSessionActive := false }
      let r1 := upsertSessionRecord cfg s3 true now succ FlushKind.sessionEnd
      (r1.1, r0.2.toList ++ r1.2.toList)
    else
      let r1 := checkUpsertTriggers cfg s2 now succ
      (r1.1, r0.2.toList ++ r1.2.toList)

/-- One externally observable stimulus of the tracker: a bus message
(handleMessage), the armed setTimeout firing (the callback at
src/unnamed/part_000 lines 257-262), the page becoming hidden
(handleVisibilityChange, lines 75-80), component teardown
(disconnectedCallback, lines 46-53), or the public logEvent API
(lines 335-344). Each carries the Date.now() at which it runs and the
outcome of any Apex upsert it performs. -/
inductive Input where
  | bus (m : BusMessage) (now : Nat) (succ : Bool)
  | timerFire (now : Nat) (succ : Bool)
  | visibilityHidden (now : Nat) (succ : Bool)
  | teardown (now : Nat) (succ : Bool)
  | manualLog (eventType : String) (data : Option String) (now : Nat) (succ : Bool)
deriving DecidableEq

/-- The wall-clock time at which an input runs. -/
def timeOfInput : Input → Nat
  | Input.bus _ now _ => now
  | Input.timerFire now _ => now
  | Input.visibilityHidden now _ => now
  | Input.teardown now _ => now
  | Input.manualLog _ _ now _ => now

/-- One cooperative turn of the tracker on one input. -/
def stepTracker (cfg : Config) (s : State) : Input → State × List FlushEvt
  | Input.bus m now succ => handleMessage cfg s m now succ
  | Input.timerFire now succ =>
    match s.upsertTimeout with
    | some tf =>
      if tf ≤ now then
        let s1 := { s with upsertTimeout := none }
        if s1.eventLog.length ≠ 0 ∧ s1.isSessionActive then
          let r := upsertSessionRecord cfg s1 false now succ FlushKind.timeTrigger
          (r.1, r.2.toList)
        else (s1, [])
      else (s, [])
    | none => (s, [])
  | Input.visibilityHidden now succ =>
    if s.isSessionActive ∧ s.eventLog.length ≠ 0 then
      let r := upsertSessionRecord cfg s false now succ FlushKind.visibility
      (r.1, r.2.toList)
    else (s, [])
  | Input.teardown now succ =>
    if s.isSessionActive ∧ s.eventLog.length ≠ 0 then
      let r := upsertSessionRecord cfg s true now succ FlushKind.teardown
      (r.1, r.2.toList)
    else (s, [])
  | Input.manualLog eventType data now succ =>
    if strFalsy s.currentSessionId then (s, [])
    else
      let s1 := addEventToLog cfg s eventType now data
      let r := checkUpsertTriggers cfg s1 now succ
      (r.1, r.2.toList)

/-- Run the tracker over a list of inputs, collecting every upsert call. -/
def runTracker (cfg : Config) : State → List Input → State × List FlushEvt
  | s, [] => (s, [])
  | s, inp :: rest =>
    let r := stepTracker cfg s inp
    let r2 := runTracker cfg r.1 rest
    (r2.1, r.2 ++ r2.2)

/-- Number of log entries whose mapped type is one of the two message kinds. -/
def msgEntryCount (log : List EventEntry) : Nat :=
  (log.filter (fun e => e.type == "Message_Sent" || e.type == "Message_Received")).length

/-- The input times are nondecreasing and bounded below by t. -/
def timesMonoB : Nat → List Input → Bool
  | _, [] => true
  | t, i :: rest => Nat.ble t (timeOfInput i) && timesMonoB (timeOfInput i) rest

/-- An input never carries the literal mapped picklist names of the two
message kinds as its event type (the bus alphabet uses the upper-case raw
tags, which addEventToLog maps). -/
def inputTypeOK : Input → Bool
  | Input.bus m _ _ => !(m.eventType == "Message_Sent" || m.eventType == "Message_Received")
  | Input.manualLog eventType _ _ _ =>
    !(eventType == "Message_Sent" || eventType == "Message_Received")
  | _ => true

/-- All inputs of a run satisfy inputTypeOK. -/
def inputsTypeOK (l : List Input) : Bool := l.all inputTypeOK

/-- The timer invariant: whenever a flush timer is armed, its scheduled fire
time is at least 30000 ms after the recorded last upsert time. -/
def InvT (s : State) : Prop :=
  ∀ tf, s.upsertTimeout = some tf → ∀ L, s.lastUpsertTime = some L → L + 30000 ≤ tf

/-- The recorded last upsert time never lies in the future of the clock t. -/
def TimeLB (s : State) (t : Nat) : Prop :=
  ∀ L, s.lastUpsertTime = some L → L ≤ t

/-- A flush respects the hybrid trigger policy: a count-triggered flush sees
at least 5 logged events, a time-triggered flush fires at least 30000 ms
after the recorded last upsert. -/
def GoodFlush (f : FlushEvt) : Prop :=
  (f.kind = FlushKind.countTrigger → 5 ≤ f.wrapper.eventCount) ∧
  (f.kind = FlushKind.timeTrigger →
    ∀ L, f.lastUpsertBefore = some L → L + 30000 ≤ f.time)

end Tracker

namespace Chat

/-- The session-relevant mutable state of the agentforceChatHost component
(agentforceChatHost.js lines 71-105). Presentation-only fields (styling,
transcript rendering, menu state) are outside every claim and omitted;
messageCount is the counter the claims are about. -/
structure ChatState where
  screenState : String
  errorMessage : String
  deploymentDeveloperName : String
  messageCount : Nat
  isAgentTyping : Bool
  isInitializing : Bool
  accessToken : Option String
  conversationId : Option String
  scrtUrl : Option String
  orgId : Option String
  lastEventId : Option String
  sessionActive : Bool
  waitingForSession : Bool
  agentGreetingReceived : Bool
  isConversationActive : Bool
deriving DecidableEq

/-- Initial field values of the component (agentforceChatHost.js lines 72-104),
with a configured deployment developer name. -/
def initChat (deployment : String) : ChatState :=
  { screenState := "welcome"
    errorMessage := ""
    deploymentDeveloperName := deployment
    messageCount := 0
    isAgentTyping := false
    isInitializing := false
    accessToken := none
    conversationId := none
    scrtUrl := none
    orgId := none
    lastEventId := none
    sessionActive := false
    waitingForSession := false
    agentGreetingReceived := false
    isConversationActive := false }

/-- The getTokenRequestConfig Apex result (agentforceChatHost.js lines 533-547);
only the fields the client reads are kept. -/
structure ConfigData where
  scrtUrl : String
  orgId : String
deriving DecidableEq

/-- The parsed token endpoint body (agentforceChatHost.js lines 551-556):
fields may be absent from the JSON. -/
structure TokenData where
  accessToken : Option String
  lastEventId : Option String
deriving DecidableEq

/-- The parsed conversation-create body (agentforceChatHost.js line 564). -/
structure ConvData where
  conversationId : Option String
deriving DecidableEq

/-- A fetch response as the client observes it: response.ok, response.status
and the body text. -/
structure HttpResp where
  ok : Bool
  status : Nat
  body : String
deriving DecidableEq

/-- The environment of one Connecting sequence: the Apex config result (error
carries the surfaced apex message), the two HTTP responses, the JSON.parse
oracles for their bodies (none = JSON.parse throws), and the version-4 UUID
that generateUUID returns at the top of createConversation. -/
structure InitEnv where
  configResult : Except String ConfigData
  tokenResp : HttpResp
  parseToken : String → Option TokenData
  genUUID : String
  convResp : HttpResp
  parseConv : String → Option ConvData

/-- The network calls initializeMessagingApi can issue, in order. -/
inductive ApiCall where
  | tokenRequest
  | conversationCreate
  | sseSubscribe
deriving DecidableEq

/-- fetchAccessToken (agentforceChatHost.js lines 588-613): non-ok status and
empty body are hard failures; a JSON.parse throw propagates to the caller's
catch (the error text of a platform SyntaxError is not fixed by this
repository and is embedded as a constant). -/
def fetchAccessToken (env : InitEnv) : Except String TokenData :=
  if env.tokenResp.ok = false then
    Except.error ("Token request failed: " ++ toString env.tokenResp.status ++ " - "
      ++ env.tokenResp.body)
  else if env.tokenResp.body == "" then
    Except.error "Empty response from token endpoint"
  else
    match env.parseToken env.tokenResp.body with
    | none => Except.error "Unexpected end of JSON input"
    | some t => Except.ok t

/-- createConversation (agentforceChatHost.js lines 618-650), minus the
assignment of the fresh UUID to this._conversationId, which the caller
embedding performs (line 619): non-ok is a hard failure; an empty or
unparseable 2xx body yields the client-chosen conversationId. -/
def createConversation (env : InitEnv) : Except String ConvData :=
  if env.convResp.ok = false then
    Except.error ("Create conversation failed: " ++ toString env.convResp.status ++ " - "
      ++ env.convResp.body)
  else if env.convResp.body == "" then
    Except.ok { conversationId := some env.genUUID }
  else
    match env.parseConv env.convResp.body with
    | none => Except.ok { conversationId := some env.genUUID }
    | some c => Except.ok c

/-- The catch arm of initializeMessagingApi (agentforceChatHost.js lines
576-582): surface the error message, move to the error screen, stop the
initializing indicator. -/
def toErrorState (s : ChatState) (m : String) : ChatState :=
  { s with errorMessage := m, screenState := "error", isInitializing := false }

/-- initializeMessagingApi (agentforceChatHost.js lines 518-583). Returns the
final state, the network calls issued, and the boolean result. The two
bounded waits of step 4 resolve permissively and change no field the claims
mention; SSE subscription is recorded as a call. The catch arm surfaces
error.message into errorMessage and moves to the error screen. -/
def initializeMessagingApi (env : InitEnv) (s : ChatState) :
    ChatState × List ApiCall × Bool :=
  if strTrim s.deploymentDeveloperName == "" then
    ({ s with errorMessage := "No deployment configured. Please select a deployment in the component settings.", screenState := "error" }, [], false)
  else
    let s0 := { s with screenState := "chat", isInitializing := true }
    match env.configResult with
    | Except.error m => (toErrorState s0 m, [], false)
    | Except.ok config =>
      if config.scrtUrl == "" then (toErrorState s0 "Invalid configuration", [], false)
      else
        let s1 := { s0 with scrtUrl := some config.scrtUrl, orgId := some config.orgId }
        match fetchAccessToken env with
        | Except.error m => (toErrorState s1 m, [ApiCall.tokenRequest], false)
        | Except.ok tok =>
          if tok.accessToken.getD "" == "" then
            (toErrorState s1 "Failed to obtain access token", [ApiCall.tokenRequest], false)
          else
            let s2 := { s1 with accessToken := tok.accessToken, lastEventId := some (tok.lastEventId.getD "") }
            let s3 := { s2 with conversationId := some env.genUUID }
            match createConversation env with
            | Except.error m =>
              (toErrorState s3 m, [ApiCall.tokenRequest, ApiCall.conversationCreate], false)
            | Except.ok conv =>
              let cid : Option String :=
                match conv.conversationId with
                | some c => if c == "" then s3.conversationId else some c
                | none => s3.conversationId
              let s4 := { s3 with conversationId := cid, isInitializing := false }
              (s4, [ApiCall.tokenRequest, ApiCall.conversationCreate, ApiCall.sseSubscribe], true)

/-- handleRetry (agentforceChatHost.js lines 1056-1061), verbatim: it resets
the screen, the error message, the access token and the conversation id. -/
def handleRetry (s : ChatState) : ChatState :=
  { s with
      screenState := "welcome"
      errorMessage := ""
      accessToken := none
      conversationId := none }

/-- A conversationEntry of a stream event (agentforceChatHost.js lines 788-792):
senderRole embeds entry.sender?.role. -/
structure ConvEntry where
  entryType : String
  senderRole : Option String
  entryPayload : String
deriving DecidableEq

/-- The parsed SSE data payload (agentforceChatHost.js lines 787-789). -/
structure SSEData where
  conversationEntry : Option ConvEntry
deriving DecidableEq

/-- The parsed entryPayload of a Message entry:
payload.abstractMessage?.staticContent?.text. -/
structure MsgPayload where
  text : Option String
deriving DecidableEq

/-- The parsed entryPayload of a SessionStatusChanged entry. -/
structure StatusPayload where
  sessionStatus : Option String
deriving DecidableEq

/-- JSON.parse oracles for the three payload shapes handleSSEMessage parses;
none embeds a JSON.parse throw caught by the surrounding try/catch. -/
structure Oracles where
  parseData : String → Option SSEData
  parseMsgPayload : String → Option MsgPayload
  parseStatusPayload : String → Option StatusPayload

/-- The bus events handleSSEMessage publishes. -/
inductive PubEvent where
  | messageReceived (messageIndex : Nat)
deriving DecidableEq

/-- handleSSEMessage (agentforceChatHost.js lines 785-845). The try/catch
swallowing parse errors is the none arms. The third component records the
conversationEntry the handler dispatched on (none when the payload did not
parse or carried no entry) - instrumentation for the routing claims. -/
def handleSSEMessage (orc : Oracles) (s : ChatState) (data : String) :
    ChatState × List PubEvent × Option ConvEntry :=
  match orc.parseData data with
  | none => (s, [], none)
  | some d =>
    match d.conversationEntry with
    | none => (s, [], none)
    | some entry =>
      if entry.entryType == "Message" then
        match orc.parseMsgPayload entry.entryPayload with
        | none => (s, [], some entry)
        | some p =>
          if entry.senderRole == some "Chatbot" || entry.senderRole == some "Agent" then
            let s1 := { s with isAgentTyping := false }
            if p.text.getD "" == "" then (s1, [], some entry)
            else
              let s2 := { s1 with
                messageCount := s1.messageCount + 1
                agentGreetingReceived := true }
              (s2, [PubEvent.messageReceived s2.messageCount], some entry)
          else (s, [], some entry)
      else if entry.entryType == "TypingStartedIndicator" then
        if entry.senderRole == some "Chatbot" || entry.senderRole == some "Agent" then
          ({ s with isAgentTyping := true }, [], some entry)
        else (s, [], some entry)
      else if entry.entryType == "TypingStoppedIndicator" then
        ({ s with isAgentTyping := false }, [], some entry)
      else if entry.entryType == "SessionStatusChanged" then
        match orc.parseStatusPayload entry.entryPayload with
        | none => (s, [], some entry)
        | some p =>
          if p.sessionStatus == some "Active" then
            ({ s with sessionActive := true, waitingForSession := false }, [], some entry)
          else (s, [], some entry)
      else (s, [], some entry)

/-- The data accumulated from the data: lines of one event block
(agentforceChatHost.js lines 761-771): the tails of all data: lines,
trimmed and concatenated. A block is its list of lines (the split on a
single newline at line 761). -/
def dataOf (lines : List String) : String :=
  lines.foldl
    (fun acc line =>
      if strStartsWith line "data:" then acc ++ strTrim (strDrop line 5) else acc)
    ""

/-- The id accumulated from the id: lines of one event block (same loop):
the last id: line wins. -/
def eventIdOf (lines : List String) : String :=
  lines.foldl
    (fun acc line =>
      if strStartsWith line "data:" then acc
      else if strStartsWith line "id:" then strTrim (strDrop line 3)
      else acc)
    ""

/-- Whether a block reaches the protocol-event dispatch: it must have a
non-empty data payload whose JSON parses to an object with a
conversationEntry. Depends only on the block and the oracles. -/
def routeOf (orc : Oracles) (lines : List String) : Option ConvEntry :=
  if dataOf lines == "" then none
  else
    match orc.parseData (dataOf lines) with
    | none => none
    | some d => d.conversationEntry

/-- processSSEEvent (agentforceChatHost.js lines 760-780): update the cursor
from the id: lines, then hand a non-empty data payload to handleSSEMessage. -/
def processSSEEvent (orc : Oracles) (s : ChatState) (lines : List String) :
    ChatState × List PubEvent × Option ConvEntry :=
  let eid := eventIdOf lines
  let s1 := if eid == "" then s else { s with lastEventId := some eid }
  if dataOf lines == "" then (s1, [], none)
  else handleSSEMessage orc s1 (dataOf lines)

/-- The read loop of _startSSEStream (agentforceChatHost.js lines 738-751)
over a sequence of complete event blocks, collecting the published events
and the dispatched entries. -/
def processSSEBlocks (orc : Oracles) :
    ChatState → List (List String) → ChatState × List PubEvent × List (Option ConvEntry)
  | s, [] => (s, [], [])
  | s, b :: rest =>
    let r := processSSEEvent orc s b
    let r2 := processSSEBlocks orc r.1 rest
    (r2.1, r.2.1 ++ r2.2.1, r.2.2 :: r2.2.2)

/-- The tail of handleSendMessage after the Connecting sequence has resolved
(agentforceChatHost.js lines 974-997): append the user message, read
isFirstMessage from messageCount BEFORE incrementing, increment, set the
typing indicator, and issue the network send carrying the flag
(sendMessageToApi line 887 passes it as isNewMessagingSession). A network
failure of the send changes neither the flag already sent nor messageCount. -/
structure SendCall where
  text : String
  isNewMessagingSession : Bool
deriving DecidableEq

/-- See SendCall: the synchronous flag computation and send issue. -/
def handleSendCompletion (s : ChatState) (text : String) : ChatState × SendCall :=
  let isFirstMessage := s.messageCount == 0
  let s1 := { s with messageCount := s.messageCount + 1, isAgentTyping := true }
  (s1, { text := text, isNewMessagingSession := isFirstMessage })

/-- The atomic turns that can touch messageCount during a session: a stream
payload being handled (in particular the agent greeting arriving while
handleSendMessage is awaiting initializeMessagingApi), or the completion of
a user send. -/
inductive SessionAction where
  | sse (data : String)
  | send (text : String)
deriving DecidableEq

/-- Run a session's turns, collecting the outbound sends in order. -/
def runSession (orc : Oracles) : ChatState → List SessionAction → ChatState × List SendCall
  | s, [] => (s, [])
  | s, SessionAction.sse d :: rest =>
    let r := handleSSEMessage orc s d
    runSession orc r.1 rest
  | s, SessionAction.send t :: rest =>
    let r := handleSendCompletion s t
    let r2 := runSession orc r.1 rest
    (r2.1, r.2 :: r2.2)

end Chat

/-! Concrete instances used by counterexamples and witnesses. -/

/-- A sample tracked log entry. -/
def sampleEntry : Tracker.EventEntry :=
  { type := "Link_Click", timestamp := 900, source := "agentforceActivityTracker", data := none }

/-- A tracker configuration with every capability flag on except time-in-chat. -/
def cfgAllOn : Tracker.Config :=
  { trackSessionLifecycle := true
    trackLinkClicks := true
    trackFormSubmissions := true
    trackMessageCount := true
    trackTimeInChat := false
    componentName := "agentforceActivityTracker"
    userId := none }

/-- The same configuration with session-lifecycle tracking disabled. -/
def cfgLifecycleOff : Tracker.Config := { cfgAllOn with trackSessionLifecycle := false }

/-- The same configuration with time-in-chat tracking enabled. -/
def cfgTimeOn : Tracker.Config := { cfgAllOn with trackTimeInChat := true }

/-- A tracker state in the middle of a session with one pending logged event. -/
def sMidSession : Tracker.State :=
  { currentSessionId := some "session-1"
    sessionStartTime := some 900
    messageCount := 0
    eventLog := [sampleEntry]
    upsertTimeout := some 30900
    lastUpsertTime := some 900
    isSessionActive := true }

/-- A session-ended bus message for that session. -/
def msgSessionEnded : Tracker.BusMessage :=
  { sessionId := "session-1", eventType := "SESSION_ENDED", timestamp := 5000, data := none }

/-- A session-started bus input at time 1000. -/
def busStart : Tracker.Input :=
  Tracker.Input.bus
    { sessionId := "s1", eventType := "SESSION_STARTED", timestamp := 1000, data := none }
    1000 true

/-- A link-click bus input at time t. -/
def busClick (t : Nat) : Tracker.Input :=
  Tracker.Input.bus { sessionId := "s1", eventType := "LINK_CLICK", timestamp := t, data := none }
    t true

/-- Six tracked events of one session: the sixth arrives 996 ms after the
count-triggered flush of the first five. -/
def inputsSixEvents : List Tracker.Input :=
  [busStart, busClick 1001, busClick 1002, busClick 1003, busClick 1004, busClick 2000]

/-- A session started, then a manual logEvent carrying the literal mapped
picklist name Message_Sent as its event type. -/
def inputsManualPicklist : List Tracker.Input :=
  [busStart, Tracker.Input.manualLog "Message_Sent" none 1500 true]

/-- An agent Message entry whose payload string is pl. -/
def greetEntry : Chat.ConvEntry :=
  { entryType := "Message", senderRole := some "Agent", entryPayload := "pl" }

/-- Stream oracles under which the payload string greeting parses to an agent
Message entry with non-empty text. -/
def orcGreet : Chat.Oracles :=
  { parseData := fun d =>
      if d == "greeting" then some { conversationEntry := some greetEntry } else none
    parseMsgPayload := fun p => if p == "pl" then some { text := some "Hello" } else none
    parseStatusPayload := fun _ => none }

/-- The greeting-first interleaving: the agent greeting is handled while the
transition send is still awaiting initialization, then the send completes. -/
def actionsGreetingFirst : List Chat.SessionAction :=
  [Chat.SessionAction.sse "greeting", Chat.SessionAction.send "hi"]

/-- A chat state sitting on the error screen with a resumption cursor. -/
def chatErrorWithCursor : Chat.ChatState :=
  { Chat.initChat "dep" with
      screenState := "error"
      errorMessage := "Token request failed: 500 - boom"
      lastEventId := some "evt-42" }

/-- A Connecting environment whose token endpoint answers HTTP 500. -/
def envToken500 : Chat.InitEnv :=
  { configResult := Except.ok { scrtUrl := "scrt.example", orgId := "00D" }
    tokenResp := { ok := false, status := 500, body := "server error" }
    parseToken := fun _ => none
    genUUID := "uuid-1234"
    convResp := { ok := true, status := 200, body := "" }
    parseConv := fun _ => none }

/-- A Connecting environment whose conversation-create call answers 2xx with
an empty body. -/
def envEmptyConvBody : Chat.InitEnv :=
  { configResult := Except.ok { scrtUrl := "scrt.example", orgId := "00D" }
    tokenResp := { ok := true, status := 200, body := "tok" }
    parseToken := fun b =>
      if b == "tok" then some { accessToken := some "AT", lastEventId := some "0" } else none
    genUUID := "uuid-1234"
    convResp := { ok := true, status := 200, body := "" }
    parseConv := fun _ => none }

/-- A typing-stopped entry used by the stream witness. -/
def typingStoppedEntry : Chat.ConvEntry :=
  { entryType := "TypingStoppedIndicator", senderRole := none, entryPayload := "" }

/-- Stream oracles under which only the payload string good parses. -/
def orcOneGood : Chat.Oracles :=
  { parseData := fun d =>
      if d == "good" then some { conversationEntry := some typingStoppedEntry } else none
    parseMsgPayload := fun _ => none
    parseStatusPayload := fun _ => none }

/-- Three event blocks: one with malformed JSON, one with no data line, one
well-formed. -/
def blocksMixed : List (List String) :=
  [["data: bad json"], ["id: 7"], ["data: good"]]

/-! Theorems. -/

theorem strFalsy_false_ne_none (o : Option String) (h : strFalsy o = false) : o ≠ none := by
  cases o with
  | none => simp [strFalsy] at h
  | some s => simp

/--
C1 (amended): receiving the SESSION_ENDED bus event while a session is
current flushes immediately and unconditionally with respect to the count
and time thresholds - exactly one upsert is issued, tagged Session_Ended -
and the session is marked inactive (which disables the time trigger), but
only when the trackSessionLifecycle capability flag is enabled: the
shouldTrackEvent gate runs before the session-end branch of handleMessage.
-/
theorem c1_session_end_flush_when_lifecycle_tracked
    (cfg : Tracker.Config) (s : Tracker.State) (m : Tracker.BusMessage) (now : Nat)
    (succ : Bool)
    (hflag : cfg.trackSessionLifecycle = true)
    (het : m.eventType = "SESSION_ENDED")
    (hsid : strFalsy s.currentSessionId = false)
    (hlog : s.eventLog ≠ []) :
    ((Tracker.handleMessage cfg s m now succ).2.map fun f => (f.kind, f.wrapper.eventType))
        = [(Tracker.FlushKind.sessionEnd, "Session_Ended")] ∧
      (Tracker.handleMessage cfg s m now succ).1.isSessionActive = false := by
  simp only [Tracker.handleMessage, het]
  simp only [Tracker.shouldTrackEvent, Tracker.addEventToLog, Tracker.eventTypeMap,
    Tracker.upsertSessionRecord, Tracker.buildSessionActivityWrapper, hflag, hsid]
  cases succ <;> simp [hsid]

/--
C1 (counterexample): with trackSessionLifecycle disabled, a SESSION_ENDED
bus event delivered to a session with a non-empty event log issues no upsert
at all and leaves the state untouched (the session is not even marked
inactive), refuting the claim that the session-end flush fires regardless of
how the capability flags are configured.
-/
theorem c1_counterexample_flag_gates_session_end_flush :
    Tracker.handleMessage cfgLifecycleOff sMidSession msgSessionEnded 5000 true
      = (sMidSession, []) := by decide

/-- C1 witness: the amended theorem applied at a concrete mid-session state. -/
theorem c1_witness :
    ((Tracker.handleMessage cfgAllOn sMidSession msgSessionEnded 5000 true).2.map
        fun f => (f.kind, f.wrapper.eventType))
      = [(Tracker.FlushKind.sessionEnd, "Session_Ended")] ∧
    (Tracker.handleMessage cfgAllOn sMidSession msgSessionEnded 5000 true).1.isSessionActive
      = false :=
  c1_session_end_flush_when_lifecycle_tracked cfgAllOn sMidSession msgSessionEnded 5000 true
    rfl rfl (by decide) (by decide)

/--
C4 (amended): handleRetry returns the machine to Welcome, clears the error
message, the access token and the conversation id - but it leaves the
lastEventId resumption cursor untouched (it is only overwritten by the next
token fetch of a subsequent Connecting sequence).
-/
theorem c4_retry_clears_token_and_conversation_only (s : Chat.ChatState) :
    (Chat.handleRetry s).screenState = "welcome" ∧
    (Chat.handleRetry s).errorMessage = "" ∧
    (Chat.handleRetry s).accessToken = none ∧
    (Chat.handleRetry s).conversationId = none ∧
    (Chat.handleRetry s).lastEventId = s.lastEventId :=
  ⟨rfl, rfl, rfl, rfl, rfl⟩

/--
C4 (counterexample): retrying from the Error state with a stored resumption
cursor returns to Welcome but does not clear lastEventId, refuting the claim
that retry clears all per-session credentials.
-/
theorem c4_counterexample_cursor_survives_retry :
    (Chat.handleRetry chatErrorWithCursor).screenState = "welcome" ∧
    (Chat.handleRetry chatErrorWithCursor).lastEventId = some "evt-42" ∧
    (Chat.handleRetry chatErrorWithCursor).lastEventId ≠ none := by decide

/--
C7 (amended): rebuilding the upsert payload from an unchanged state (same
event log) at two different wall-clock instants yields records that agree on
every field except the wall-clock-derived ones: sessionId, eventType,
timestamp, eventSource, eventData, messageCount, userId, contactId and
eventCount are identical (so the upsert keyed by sessionId overwrites one
record with the same content for those fields), and the records are fully
identical whenever time-in-chat tracking is disabled and the flush is not
the terminal one; timeInChat (when tracked) and sessionEndTime (when
terminal) are recomputed from Date.now() and may differ between the writes.
-/
theorem c7_rebuild_agrees_except_time_fields
    (cfg : Tracker.Config) (s : Tracker.State) (isSessionEnd : Bool) (t1 t2 : Nat) :
    (Tracker.buildSessionActivityWrapper cfg s isSessionEnd t1).sessionId
        = (Tracker.buildSessionActivityWrapper cfg s isSessionEnd t2).sessionId ∧
    (Tracker.buildSessionActivityWrapper cfg s isSessionEnd t1).eventType
        = (Tracker.buildSessionActivityWrapper cfg s isSessionEnd t2).eventType ∧
    (Tracker.buildSessionActivityWrapper cfg s isSessionEnd t1).timestamp
        = (Tracker.buildSessionActivityWrapper cfg s isSessionEnd t2).timestamp ∧
    (Tracker.buildSessionActivityWrapper cfg s isSessionEnd t1).eventSource
        = (Tracker.buildSessionActivityWrapper cfg s isSessionEnd t2).eventSource ∧
    (Tracker.buildSessionActivityWrapper cfg s isSessionEnd t1).eventData
        = (Tracker.buildSessionActivityWrapper cfg s isSessionEnd t2).eventData ∧
    (Tracker.buildSessionActivityWrapper cfg s isSessionEnd t1).messageCount
        = (Tracker.buildSessionActivityWrapper cfg s isSessionEnd t2).messageCount ∧
    (Tracker.buildSessionActivityWrapper cfg s isSessionEnd t1).userId
        = (Tracker.buildSessionActivityWrapper cfg s isSessionEnd t2).userId ∧
    (Tracker.buildSessionActivityWrapper cfg s isSessionEnd t1).contactId
        = (Tracker.buildSessionActivityWrapper cfg s isSessionEnd t2).contactId ∧
    (Tracker.buildSessionActivityWrapper cfg s isSessionEnd t1).eventCount
        = (Tracker.buildSessionActivityWrapper cfg s isSessionEnd t2).eventCount ∧
    (cfg.trackTimeInChat = false → isSessionEnd = false →
      Tracker.buildSessionActivityWrapper cfg s isSessionEnd t1
        = Tracker.buildSessionActivityWrapper cfg s isSessionEnd t2) := by
  refine ⟨rfl, rfl, rfl, rfl, rfl, rfl, rfl, rfl, rfl, ?_⟩
  intro hT hE
  subst hE
  unfold Tracker.buildSessionActivityWrapper
  cases s.sessionStartTime <;> simp [hT]

/--
C7 (counterexample): with time-in-chat tracking enabled, building the flush
payload for the same unchanged state at t = 1000 and at t = 3000 produces
records that differ (timeInChat is 0 seconds versus 2 seconds), refuting the
claim that the two built payloads are equal field for field.
-/
theorem c7_counterexample_time_fields_differ :
    Tracker.buildSessionActivityWrapper cfgTimeOn sMidSession false 1000
      ≠ Tracker.buildSessionActivityWrapper cfgTimeOn sMidSession false 3000 := by decide

/-- C7 witness: full equality of the rebuilt payloads at a concrete state with
time-in-chat tracking off and a non-terminal flush. -/
theorem c7_witness :
    Tracker.buildSessionActivityWrapper cfgAllOn sMidSession false 1000
      = Tracker.buildSessionActivityWrapper cfgAllOn sMidSession false 3000 :=
  (c7_rebuild_agrees_except_time_fields cfgAllOn sMidSession false 1000
    3000).2.2.2.2.2.2.2.2.2 rfl rfl

/--
C9: upsertSessionRecord is a complete no-op - the state, including the
pending timer, is returned unchanged and no upsert call is issued - whenever
the current session id is falsy or the event log is empty; consequently
every payload handed to the persistence collaborator carries a non-null
sessionId and an eventCount of at least 1.
-/
theorem c9_upsert_guard_and_payload_invariant
    (cfg : Tracker.Config) (s : Tracker.State) (isSessionEnd : Bool) (now : Nat)
    (succ : Bool) (kind : Tracker.FlushKind) :
    ((strFalsy s.currentSessionId = true ∨ s.eventLog = []) →
      Tracker.upsertSessionRecord cfg s isSessionEnd now succ kind = (s, none)) ∧
    (∀ f, (Tracker.upsertSessionRecord cfg s isSessionEnd now succ kind).2 = some f →
      f.wrapper.sessionId ≠ none ∧ 1 ≤ f.wrapper.eventCount) := by
  unfold Tracker.upsertSessionRecord
  constructor
  · intro h
    have hg : (strFalsy s.currentSessionId || s.eventLog.length == 0) = true := by
      rcases h with h | h
      · simp [h]
      · simp [h]
    simp [hg]
  · intro f hf
    by_cases hg : (strFalsy s.currentSessionId || s.eventLog.length == 0) = true
    · simp [hg] at hf
    · simp only [hg, Bool.false_eq_true, if_false] at hf
      have hfe : f = _ := (Option.some_inj.mp hf).symm
      simp only [Bool.or_eq_true, beq_iff_eq, not_or] at hg
      rcases hg with ⟨hsid, hlen⟩
      have hsid2 : strFalsy s.currentSessionId = false := by
        cases hx : strFalsy s.currentSessionId
        · rfl
        · exact absurd hx hsid
      subst hfe
      constructor
      · simpa [Tracker.buildSessionActivityWrapper] using strFalsy_false_ne_none _ hsid2
      · have hlen2 : 1 ≤ s.eventLog.length := by omega
        simpa [Tracker.buildSessionActivityWrapper] using hlen2

/-- C9 witness: the guard applied at the initial state (empty log). -/
theorem c9_witness :
    Tracker.upsertSessionRecord cfgAllOn Tracker.initialState false 5 true
      Tracker.FlushKind.countTrigger = (Tracker.initialState, none) :=
  (c9_upsert_guard_and_payload_invariant cfgAllOn Tracker.initialState false 5 true
    Tracker.FlushKind.countTrigger).1 (Or.inr rfl)

/--
C5: when the token endpoint answers a non-2xx status during the Connecting
sequence (with the configured deployment present and the config fetch
succeeding), the client ends on the error screen with the upstream failure
surfaced in the error message, the conversation-create call is never issued,
and initialization reports failure.
-/
theorem c5_token_failure_aborts_before_conversation_create
    (env : Chat.InitEnv) (s : Chat.ChatState) (cfg : Chat.ConfigData)
    (hdep : strTrim s.deploymentDeveloperName ≠ "")
    (hcfg : env.configResult = Except.ok cfg)
    (hurl : cfg.scrtUrl ≠ "")
    (hbad : env.tokenResp.ok = false) :
    (Chat.initializeMessagingApi env s).1.screenState = "error" ∧
    (Chat.initializeMessagingApi env s).1.errorMessage
        = "Token request failed: " ++ toString env.tokenResp.status ++ " - "
          ++ env.tokenResp.body ∧
    Chat.ApiCall.conversationCreate ∉ (Chat.initializeMessagingApi env s).2.1 ∧
    (Chat.initializeMessagingApi env s).2.2 = false := by
  have hd : (strTrim s.deploymentDeveloperName == "") = false := beq_eq_false_iff_ne.mpr hdep
  have hu : (cfg.scrtUrl == "") = false := beq_eq_false_iff_ne.mpr hurl
  simp [Chat.initializeMessagingApi, hd, hcfg, hu, Chat.fetchAccessToken, hbad,
    Chat.toErrorState]

/-- C5 witness: the theorem applied to a concrete environment whose token
endpoint answers HTTP 500. -/
theorem c5_witness :
    (Chat.initializeMessagingApi envToken500 (Chat.initChat "dep")).1.screenState = "error" ∧
    (Chat.initializeMessagingApi envToken500 (Chat.initChat "dep")).1.errorMessage
        = "Token request failed: " ++ toString envToken500.tokenResp.status ++ " - "
          ++ envToken500.tokenResp.body ∧
    Chat.ApiCall.conversationCreate ∉ (Chat.initializeMessagingApi envToken500
      (Chat.initChat "dep")).2.1 ∧
    (Chat.initializeMessagingApi envToken500 (Chat.initChat "dep")).2.2 = false :=
  c5_token_failure_aborts_before_conversation_create envToken500 (Chat.initChat "dep")
    { scrtUrl := "scrt.example", orgId := "00D" } (by decide) rfl (by decide) rfl

/--
C6: when the conversation-create call answers 2xx with an empty or
unparseable body (the token step having succeeded), the conversationId after
the Connecting step equals the version-4 UUID the client generated before
issuing the call, and the sequence completes successfully instead of
aborting to the error screen.
-/
theorem c6_empty_conversation_body_keeps_client_uuid
    (env : Chat.InitEnv) (s : Chat.ChatState) (cfg : Chat.ConfigData) (tok : Chat.TokenData)
    (hdep : strTrim s.deploymentDeveloperName ≠ "")
    (hcfg : env.configResult = Except.ok cfg)
    (hurl : cfg.scrtUrl ≠ "")
    (hok : env.tokenResp.ok = true)
    (hbody : env.tokenResp.body ≠ "")
    (hparse : env.parseToken env.tokenResp.body = some tok)
    (htok : tok.accessToken.getD "" ≠ "")
    (hconvok : env.convResp.ok = true)
    (hempty : env.convResp.body = "" ∨ env.parseConv env.convResp.body = none) :
    (Chat.initializeMessagingApi env s).1.conversationId = some env.genUUID ∧
    (Chat.initializeMessagingApi env s).1.screenState = "chat" ∧
    (Chat.initializeMessagingApi env s).2.2 = true := by
  have hd : (strTrim s.deploymentDeveloperName == "") = false := beq_eq_false_iff_ne.mpr hdep
  have hu : (cfg.scrtUrl == "") = false := beq_eq_false_iff_ne.mpr hurl
  have hb : (env.tokenResp.body == "") = false := beq_eq_false_iff_ne.mpr hbody
  have ht : (tok.accessToken.getD "" == "") = false := beq_eq_false_iff_ne.mpr htok
  have hconv : Chat.createConversation env
      = Except.ok { conversationId := some env.genUUID } := by
    rcases hempty with h | h
    · simp [Chat.createConversation, hconvok, h]
    · by_cases hcb : env.convResp.body = ""
      · simp [Chat.createConversation, hconvok, hcb]
      · have hcb2 : (env.convResp.body == "") = false := beq_eq_false_iff_ne.mpr hcb
        simp [Chat.createConversation, hconvok, hcb2, h]
  by_cases hg : env.genUUID = ""
  · simp [Chat.initializeMessagingApi, hd, hcfg, hu, Chat.fetchAccessToken, hok, hb,
      hparse, ht, hconv, hg]
  · have hg2 : (env.genUUID == "") = false := beq_eq_false_iff_ne.mpr hg
    simp [Chat.initializeMessagingApi, hd, hcfg, hu, Chat.fetchAccessToken, hok, hb,
      hparse, ht, hconv, hg2]

/-- C6 witness: the theorem applied to a concrete environment whose
conversation-create call answers 2xx with an empty body. -/
theorem c6_witness :
    (Chat.initializeMessagingApi envEmptyConvBody (Chat.initChat "dep")).1.conversationId
        = some envEmptyConvBody.genUUID ∧
    (Chat.initializeMessagingApi envEmptyConvBody (Chat.initChat "dep")).1.screenState
        = "chat" ∧
    (Chat.initializeMessagingApi envEmptyConvBody (Chat.initChat "dep")).2.2 = true :=
  c6_empty_conversation_body_keeps_client_uuid envEmptyConvBody (Chat.initChat "dep")
    { scrtUrl := "scrt.example", orgId := "00D" }
    { accessToken := some "AT", lastEventId := some "0" }
    (by decide) rfl (by decide) rfl (by decide) (by decide) (by decide) rfl
    (Or.inl rfl)

theorem sse_messageCount_mono (orc : Chat.Oracles) (s : Chat.ChatState) (d : String) :
    s.messageCount ≤ (Chat.handleSSEMessage orc s d).1.messageCount := by
  unfold Chat.handleSSEMessage
  repeat' split
  all_goals simp

theorem runSession_flags_false (orc : Chat.Oracles) (s : Chat.ChatState)
    (acts : List Chat.SessionAction) (h : 1 ≤ s.messageCount) :
    ∀ c ∈ (Chat.runSession orc s acts).2, c.isNewMessagingSession = false := by
  induction acts generalizing s with
  | nil => intro c hc; simp [Chat.runSession] at hc
  | cons a rest ih =>
    cases a with
    | sse d =>
      intro c hc
      simp only [Chat.runSession] at hc
      exact ih _ (le_trans h (sse_messageCount_mono orc s d)) c hc
    | send t =>
      intro c hc
      simp only [Chat.runSession, Chat.handleSendCompletion] at hc
      rcases List.mem_cons.mp hc with hc | hc
      · subst hc
        simp only [beq_eq_false_iff_ne, ne_eq]
        omega
      · exact ih _ (by show 1 ≤ s.messageCount + 1; omega) c hc

theorem runSession_tail_flags_false (orc : Chat.Oracles) (s : Chat.ChatState)
    (acts : List Chat.SessionAction) :
    ∀ c ∈ ((Chat.runSession orc s acts).2.drop 1), c.isNewMessagingSession = false := by
  induction acts generalizing s with
  | nil => intro c hc; simp [Chat.runSession] at hc
  | cons a rest ih =>
    cases a with
    | sse d =>
      intro c hc
      simp only [Chat.runSession] at hc
      exact ih _ c hc
    | send t =>
      intro c hc
      simp only [Chat.runSession, Chat.handleSendCompletion, List.drop_one,
        List.tail_cons] at hc
      exact runSession_flags_false orc _ rest (by show 1 ≤ s.messageCount + 1; omega) c hc

theorem runSession_at_most_one_true (orc : Chat.Oracles) (s : Chat.ChatState)
    (acts : List Chat.SessionAction) :
    ((Chat.runSession orc s acts).2.filter (fun c => c.isNewMessagingSession)).length ≤ 1 := by
  induction acts generalizing s with
  | nil => simp [Chat.runSession]
  | cons a rest ih =>
    cases a with
    | sse d => simpa only [Chat.runSession] using ih _
    | send t =>
      simp only [Chat.runSession, Chat.handleSendCompletion, List.filter_cons]
      by_cases h0 : (s.messageCount == 0) = true
      · have hall := runSession_flags_false orc
          { s with messageCount := s.messageCount + 1, isAgentTyping := true } rest
          (by show 1 ≤ s.messageCount + 1; omega)
        have hfil : ((Chat.runSession orc
            { s with messageCount := s.messageCount + 1, isAgentTyping := true } rest).2.filter
              (fun c => c.isNewMessagingSession)) = [] := by
          rw [List.filter_eq_nil_iff]
          intro c hc
          simp [hall c hc]
        simp [h0, hfil]
      · simpa [h0] using ih _

/--
C2 (amended): over every interleaving of stream-handled payloads and user
send completions, the isNewMessagingSession flag is true on at most one
send, and every send after the first carries false; the flag is true only
when no chat message at all (sent or received) was counted before the flag
was read - in particular, an agent greeting handled before the transition
send completes makes the flag false on every send of the session.
-/
theorem c2_transition_flag_at_most_once (orc : Chat.Oracles) (dep : String)
    (acts : List Chat.SessionAction) :
    (∀ c ∈ ((Chat.runSession orc (Chat.initChat dep) acts).2.drop 1),
      c.isNewMessagingSession = false) ∧
    ((Chat.runSession orc (Chat.initChat dep) acts).2.filter
      (fun c => c.isNewMessagingSession)).length ≤ 1 :=
  ⟨runSession_tail_flags_false orc (Chat.initChat dep) acts,
   runSession_at_most_one_true orc (Chat.initChat dep) acts⟩

/--
C2 (counterexample): when the agent greeting is handled before the
transition send completes (the normal flow - initializeMessagingApi awaits
the greeting before handleSendMessage computes the flag), the one and only
send of the session - the transition send - carries
isNewMessagingSession = false, refuting the claim that the flag is true on
exactly one send.
-/
theorem c2_counterexample_greeting_first_flag_false :
    ((Chat.runSession orcGreet (Chat.initChat "dep") actionsGreetingFirst).2.map
      fun c => c.isNewMessagingSession) = [false] := by decide

/-- C2 witness: the amended theorem applied to a concrete two-send session. -/
theorem c2_witness :
    ((Chat.runSession orcGreet (Chat.initChat "dep")
      [Chat.SessionAction.send "a", Chat.SessionAction.send "b"]).2.filter
        (fun c => c.isNewMessagingSession)).length ≤ 1 :=
  (c2_transition_flag_at_most_once orcGreet "dep"
    [Chat.SessionAction.send "a", Chat.SessionAction.send "b"]).2

theorem handleSSE_routed (orc : Chat.Oracles) (s : Chat.ChatState) (d : String) :
    (Chat.handleSSEMessage orc s d).2.2
      = (orc.parseData d).bind (fun x => x.conversationEntry) := by
  unfold Chat.handleSSEMessage
  cases hp : orc.parseData d with
  | none => simp [hp]
  | some d2 =>
    cases he : d2.conversationEntry with
    | none => simp [hp, he]
    | some entry =>
      simp only [hp, he]
      have hr : ((some d2).bind fun x => x.conversationEntry) = some entry := by simp [he]
      rw [hr]
      repeat' split
      all_goals rfl

theorem processSSEEvent_routed (orc : Chat.Oracles) (s : Chat.ChatState)
    (b : List String) :
    (Chat.processSSEEvent orc s b).2.2 = Chat.routeOf orc b := by
  unfold Chat.processSSEEvent Chat.routeOf
  by_cases hd : (Chat.dataOf b == "") = true
  · simp [hd]
  · simp only [hd, Bool.false_eq_true, if_false, handleSSE_routed]
    cases orc.parseData (Chat.dataOf b) <;> rfl

/--
C8: a stream event block whose data payload is malformed JSON, or which has
no data line at all, is dropped without reaching the protocol-event
dispatch, and the processing of a block sequence routes each block
independently of its neighbours: the routed entries of a run are exactly
the per-block routing results, so every well-formed block after a dropped
one is still parsed and routed to the protocol-event handler.
-/
theorem c8_bad_blocks_dropped_rest_routed (orc : Chat.Oracles) (s : Chat.ChatState)
    (blocks : List (List String)) :
    (Chat.processSSEBlocks orc s blocks).2.2 = blocks.map (Chat.routeOf orc) ∧
    (∀ b, Chat.dataOf b = "" ∨ orc.parseData (Chat.dataOf b) = none →
      Chat.routeOf orc b = none) := by
  constructor
  · induction blocks generalizing s with
    | nil => simp [Chat.processSSEBlocks]
    | cons b rest ih =>
      simp only [Chat.processSSEBlocks, List.map_cons]
      rw [processSSEEvent_routed, ih]
  · intro b hb
    unfold Chat.routeOf
    rcases hb with h | h
    · simp [h]
    · by_cases hd : (Chat.dataOf b == "") = true
      · simp [hd]
      · simp [hd, h]

/-- C8 witness: a malformed block, a data-less block and a well-formed block
processed in sequence; the bad blocks route nothing and the good one is
still routed. -/
theorem c8_witness :
    (Chat.processSSEBlocks orcOneGood (Chat.initChat "dep") blocksMixed).2.2
        = blocksMixed.map (Chat.routeOf orcOneGood) ∧
    Chat.routeOf orcOneGood ["data: bad json"] = none :=
  ⟨(c8_bad_blocks_dropped_rest_routed orcOneGood (Chat.initChat "dep") blocksMixed).1,
   (c8_bad_blocks_dropped_rest_routed orcOneGood (Chat.initChat "dep") blocksMixed).2
     ["data: bad json"] (Or.inr (by decide))⟩

theorem msgEntryCount_append (l : List Tracker.EventEntry) (e : Tracker.EventEntry) :
    Tracker.msgEntryCount (l ++ [e])
      = Tracker.msgEntryCount l
        + (if (e.type == "Message_Sent" || e.type == "Message_Received") = true
            then 1 else 0) := by
  simp only [Tracker.msgEntryCount, List.filter_append, List.length_append]
  split
  · rename_i h
    simp [List.filter_cons, h]
  · rename_i h
    simp [List.filter_cons, h]

theorem eventTypeMap_msg_iff (et : String)
    (hok : ¬(et = "Message_Sent" ∨ et = "Message_Received")) :
    ((Tracker.eventTypeMap et == "Message_Sent")
        || (Tracker.eventTypeMap et == "Message_Received"))
      = ((et == "MESSAGE_SENT") || (et == "MESSAGE_RECEIVED")) := by
  unfold Tracker.eventTypeMap
  push_neg at hok
  rcases hok with ⟨h1, h2⟩
  split_ifs with g1 g2 g3 g4 g5 g6
  · simp_all
  · simp_all
  · simp_all
  · simp_all
  · simp_all
  · simp_all
  · simp only [beq_eq_false_iff_ne.mpr h1, beq_eq_false_iff_ne.mpr h2, Bool.or_self,
      Bool.false_eq, Bool.or_eq_false_iff, beq_eq_false_iff_ne, ne_eq]
    exact ⟨fun h => g5 (by simp [h]), fun h => g6 (by simp [h])⟩

theorem addEvent_inv (cfg : Tracker.Config) (s : Tracker.State) (et : String)
    (ts : Nat) (data : Option String)
    (hok : ¬(et = "Message_Sent" ∨ et = "Message_Received"))
    (hinv : s.messageCount = Tracker.msgEntryCount s.eventLog) :
    (Tracker.addEventToLog cfg s et ts data).messageCount
      = Tracker.msgEntryCount (Tracker.addEventToLog cfg s et ts data).eventLog := by
  unfold Tracker.addEventToLog
  by_cases hm : (et == "MESSAGE_SENT" || et == "MESSAGE_RECEIVED") = true
  · simp only [hm, if_true]
    rw [msgEntryCount_append]
    have : ((Tracker.eventTypeMap et == "Message_Sent")
        || (Tracker.eventTypeMap et == "Message_Received")) = true := by
      rw [eventTypeMap_msg_iff et hok]; exact hm
    simp [this, hinv]
  · simp only [hm, Bool.false_eq_true, if_false]
    rw [msgEntryCount_append]
    have : ((Tracker.eventTypeMap et == "Message_Sent")
        || (Tracker.eventTypeMap et == "Message_Received")) = false := by
      rw [eventTypeMap_msg_iff et hok]
      exact Bool.not_eq_true _ ▸ (by simpa using hm)
    simp [this, hinv]

theorem upsert_count_log_const (cfg : Tracker.Config) (s : Tracker.State)
    (isSessionEnd : Bool) (now : Nat) (succ : Bool) (kind : Tracker.FlushKind) :
    (Tracker.upsertSessionRecord cfg s isSessionEnd now succ kind).1.messageCount
        = s.messageCount ∧
    (Tracker.upsertSessionRecord cfg s isSessionEnd now succ kind).1.eventLog
        = s.eventLog := by
  unfold Tracker.upsertSessionRecord
  split
  · simp
  · cases succ <;> simp

theorem check_count_log_const (cfg : Tracker.Config) (s : Tracker.State)
    (now : Nat) (succ : Bool) :
    (Tracker.checkUpsertTriggers cfg s now succ).1.messageCount = s.messageCount ∧
    (Tracker.checkUpsertTriggers cfg s now succ).1.eventLog = s.eventLog := by
  unfold Tracker.checkUpsertTriggers
  dsimp only
  by_cases h5 : 5 ≤ s.eventLog.length
  · simpa [h5] using upsert_count_log_const cfg s false now succ Tracker.FlushKind.countTrigger
  · simp only [h5, if_false]
    split <;> simp

theorem step_inv10 (cfg : Tracker.Config) (s : Tracker.State) (inp : Tracker.Input)
    (hok : Tracker.inputTypeOK inp = true)
    (hinv : s.messageCount = Tracker.msgEntryCount s.eventLog) :
    (Tracker.stepTracker cfg s inp).1.messageCount
      = Tracker.msgEntryCount (Tracker.stepTracker cfg s inp).1.eventLog := by
  cases inp with
  | bus m now succ =>
    simp only [Tracker.inputTypeOK, Bool.not_eq_eq_eq_not, Bool.not_true,
      Bool.or_eq_false_iff, beq_eq_false_iff_ne, ne_eq] at hok
    have hok2 : ¬(m.eventType = "Message_Sent" ∨ m.eventType = "Message_Received") := by
      rcases hok with ⟨h1, h2⟩
      intro h
      rcases h with h | h
      · exact h1 h
      · exact h2 h
    simp only [Tracker.stepTracker, Tracker.handleMessage]
    have hreset : ∀ sid ts,
        (Tracker.resetSessionState cfg s sid ts now succ).1.messageCount
          = Tracker.msgEntryCount
              (Tracker.resetSessionState cfg s sid ts now succ).1.eventLog := by
      intro sid ts
      simp [Tracker.resetSessionState, Tracker.msgEntryCount]
    set s1 := (if m.eventType == "SESSION_STARTED" then
        Tracker.resetSessionState cfg s m.sessionId m.timestamp now succ
      else (s, none)).1 with hs1
    have hinv1 : s1.messageCount = Tracker.msgEntryCount s1.eventLog := by
      rw [hs1]
      split
      · exact hreset m.sessionId m.timestamp
      · exact hinv
    split
    · exact hinv1
    · split
      · have h2 := addEvent_inv cfg s1 m.eventType m.timestamp m.data hok2 hinv1
        have h3 := upsert_count_log_const cfg
          { Tracker.addEventToLog cfg s1 m.eventType m.timestamp m.data with
            isSessionActive := false } true now succ Tracker.FlushKind.sessionEnd
        rw [h3.1, h3.2]
        exact h2
      · have h2 := addEvent_inv cfg s1 m.eventType m.timestamp m.data hok2 hinv1
        have h3 := check_count_log_const cfg
          (Tracker.addEventToLog cfg s1 m.eventType m.timestamp m.data) now succ
        rw [h3.1, h3.2]
        exact h2
  | timerFire now succ =>
    simp only [Tracker.stepTracker]
    cases s.upsertTimeout with
    | none => exact hinv
    | some tf =>
      simp only []
      split
      · split
        · have h3 := upsert_count_log_const cfg { s with upsertTimeout := none } false now
            succ Tracker.FlushKind.timeTrigger
          rw [h3.1, h3.2]
          exact hinv
        · exact hinv
      · exact hinv
  | visibilityHidden now succ =>
    simp only [Tracker.stepTracker]
    split
    · have h3 := upsert_count_log_const cfg s false now succ Tracker.FlushKind.visibility
      rw [h3.1, h3.2]
      exact hinv
    · exact hinv
  | teardown now succ =>
    simp only [Tracker.stepTracker]
    split
    · have h3 := upsert_count_log_const cfg s true now succ Tracker.FlushKind.teardown
      rw [h3.1, h3.2]
      exact hinv
    · exact hinv
  | manualLog et data now succ =>
    simp only [Tracker.inputTypeOK, Bool.not_eq_eq_eq_not, Bool.not_true,
      Bool.or_eq_false_iff, beq_eq_false_iff_ne, ne_eq] at hok
    have hok2 : ¬(et = "Message_Sent" ∨ et = "Message_Received") := by
      rcases hok with ⟨h1, h2⟩
      intro h
      rcases h with h | h
      · exact h1 h
      · exact h2 h
    simp only [Tracker.stepTracker]
    split
    · exact hinv
    · have h2 := addEvent_inv cfg s et now data hok2 hinv
      have h3 := check_count_log_const cfg (Tracker.addEventToLog cfg s et now data) now succ
      rw [h3.1, h3.2]
      exact h2

theorem run_inv10 (cfg : Tracker.Config) (inputs : List Tracker.Input) :
    ∀ s : Tracker.State, Tracker.inputsTypeOK inputs = true →
      s.messageCount = Tracker.msgEntryCount s.eventLog →
      (Tracker.runTracker cfg s inputs).1.messageCount
        = Tracker.msgEntryCount (Tracker.runTracker cfg s inputs).1.eventLog := by
  induction inputs with
  | nil => intro s _ hinv; simpa [Tracker.runTracker] using hinv
  | cons i rest ih =>
    intro s hok hinv
    simp only [Tracker.inputsTypeOK, List.all_cons, Bool.and_eq_true] at hok
    simp only [Tracker.runTracker]
    exact ih _ (by simp [Tracker.inputsTypeOK, hok.2]) (step_inv10 cfg s i hok.1 hinv)

/--
C10 (amended): in every state reachable from the initial one via bus
messages, timer fires, visibility/teardown events and manual logEvent calls,
the running message counter equals the number of event-log entries whose
mapped type is Message_Sent or Message_Received - provided no operation
injects an event whose raw type is already the literal mapped picklist name
Message_Sent or Message_Received (the bus alphabet uses the raw upper-case
tags, which addEventToLog both counts and maps; a pre-mapped name is
appended by the fallback arm of the map without being counted).
-/
theorem c10_message_counter_matches_log (cfg : Tracker.Config)
    (inputs : List Tracker.Input)
    (hok : Tracker.inputsTypeOK inputs = true) :
    (Tracker.runTracker cfg Tracker.initialState inputs).1.messageCount
      = Tracker.msgEntryCount
          (Tracker.runTracker cfg Tracker.initialState inputs).1.eventLog :=
  run_inv10 cfg inputs Tracker.initialState hok rfl

/--
C10 (counterexample): a manual logEvent call carrying the literal picklist
name Message_Sent appends a Message_Sent entry to the log without touching
the message counter (addEventToLog only counts the raw tags MESSAGE_SENT
and MESSAGE_RECEIVED), so after one such call the counter is 0 while the
log holds 1 message-typed entry, refuting the unconditional invariant.
-/
theorem c10_counterexample_manual_picklist_name :
    (Tracker.runTracker cfgAllOn Tracker.initialState inputsManualPicklist).1.messageCount
        = 0 ∧
    Tracker.msgEntryCount
        (Tracker.runTracker cfgAllOn Tracker.initialState
          inputsManualPicklist).1.eventLog = 1 := by decide

/-- C10 witness: the amended invariant applied to a concrete run with raw
bus tags only. -/
theorem c10_witness :
    (Tracker.runTracker cfgAllOn Tracker.initialState inputsSixEvents).1.messageCount
      = Tracker.msgEntryCount
          (Tracker.runTracker cfgAllOn Tracker.initialState
            inputsSixEvents).1.eventLog :=
  c10_message_counter_matches_log cfgAllOn inputsSixEvents (by decide)

theorem goodFlush_of_kind_ne (f : Tracker.FlushEvt)
    (h1 : f.kind ≠ Tracker.FlushKind.countTrigger)
    (h2 : f.kind ≠ Tracker.FlushKind.timeTrigger) : Tracker.GoodFlush f :=
  ⟨fun h => absurd h h1, fun h => absurd h h2⟩

theorem upsert_invT (cfg : Tracker.Config) (s : Tracker.State) (e : Bool) (now : Nat)
    (succ : Bool) (kind : Tracker.FlushKind) (h : Tracker.InvT s) :
    Tracker.InvT (Tracker.upsertSessionRecord cfg s e now succ kind).1 := by
  unfold Tracker.upsertSessionRecord
  split
  · exact h
  · cases succ
    · intro tf htf
      simp at htf
    · intro tf htf
      simp at htf

theorem upsert_timeLB (cfg : Tracker.Config) (s : Tracker.State) (e : Bool) (now : Nat)
    (succ : Bool) (kind : Tracker.FlushKind) (h : Tracker.TimeLB s now) :
    Tracker.TimeLB (Tracker.upsertSessionRecord cfg s e now succ kind).1 now := by
  unfold Tracker.upsertSessionRecord
  split
  · exact h
  · cases succ
    · intro L hL
      exact h L (by simpa using hL)
    · intro L hL
      have : some now = some L := by simpa using hL
      simp at this
      omega

theorem upsert_flush_fields (cfg : Tracker.Config) (s : Tracker.State) (e : Bool)
    (now : Nat) (succ : Bool) (kind : Tracker.FlushKind) :
    ∀ f, (Tracker.upsertSessionRecord cfg s e now succ kind).2 = some f →
      f.kind = kind ∧ f.time = now ∧ f.lastUpsertBefore = s.lastUpsertTime ∧
      f.wrapper.eventCount = s.eventLog.length := by
  unfold Tracker.upsertSessionRecord
  split
  · intro f hf
    simp at hf
  · intro f hf
    dsimp only at hf
    have he : f = _ := (Option.some_inj.mp hf).symm
    subst he
    refine ⟨rfl, rfl, rfl, ?_⟩
    simp [Tracker.buildSessionActivityWrapper]

theorem addEvent_timeout (cfg : Tracker.Config) (s : Tracker.State) (et : String)
    (ts : Nat) (d : Option String) :
    (Tracker.addEventToLog cfg s et ts d).upsertTimeout = s.upsertTimeout := by
  unfold Tracker.addEventToLog
  dsimp only
  split <;> rfl

theorem addEvent_lastUpsert (cfg : Tracker.Config) (s : Tracker.State) (et : String)
    (ts : Nat) (d : Option String) :
    (Tracker.addEventToLog cfg s et ts d).lastUpsertTime = s.lastUpsertTime := by
  unfold Tracker.addEventToLog
  dsimp only
  split <;> rfl

theorem check_invT (cfg : Tracker.Config) (s : Tracker.State) (now : Nat) (succ : Bool)
    (hInv : Tracker.InvT s) (hLB : Tracker.TimeLB s now) :
    Tracker.InvT (Tracker.checkUpsertTriggers cfg s now succ).1 := by
  unfold Tracker.checkUpsertTriggers
  dsimp only
  by_cases h5 : 5 ≤ s.eventLog.length
  · simp only [h5, if_true]
    exact upsert_invT cfg s false now succ Tracker.FlushKind.countTrigger hInv
  · simp only [h5, if_false]
    by_cases hrem : 0 < 30000 - (now - natOrElse s.lastUpsertTime now)
    · simp only [hrem, if_true]
      intro tf htf L hL
      have htf2 : now + (30000 - (now - natOrElse s.lastUpsertTime now)) = tf := by
        simpa using htf
      have hLl := hLB L hL
      rw [hL] at htf2 hrem
      simp only [natOrElse] at htf2 hrem
      by_cases hL0 : (L == 0) = true
      · have hL0e : L = 0 := by simpa using hL0
        subst hL0e
        simp at htf2 hrem
        omega
      · simp only [hL0, Bool.false_eq_true, if_false] at htf2 hrem
        omega
    · simp only [hrem, if_false]
      intro tf htf
      simp at htf

theorem check_timeLB (cfg : Tracker.Config) (s : Tracker.State) (now : Nat) (succ : Bool)
    (hLB : Tracker.TimeLB s now) :
    Tracker.TimeLB (Tracker.checkUpsertTriggers cfg s now succ).1 now := by
  unfold Tracker.checkUpsertTriggers
  dsimp only
  by_cases h5 : 5 ≤ s.eventLog.length
  · simp only [h5, if_true]
    exact upsert_timeLB cfg s false now succ Tracker.FlushKind.countTrigger hLB
  · simp only [h5, if_false]
    split
    · intro L hL
      exact hLB L (by simpa using hL)
    · intro L hL
      exact hLB L (by simpa using hL)

theorem check_flush_good (cfg : Tracker.Config) (s : Tracker.State) (now : Nat)
    (succ : Bool) :
    ∀ f, (Tracker.checkUpsertTriggers cfg s now succ).2 = some f → Tracker.GoodFlush f := by
  unfold Tracker.checkUpsertTriggers
  dsimp only
  by_cases h5 : 5 ≤ s.eventLog.length
  · simp only [h5, if_true]
    intro f hf
    obtain ⟨hk, ht, hlb, hc⟩ :=
      upsert_flush_fields cfg s false now succ Tracker.FlushKind.countTrigger f hf
    constructor
    · intro _
      rw [hc]
      exact h5
    · intro hk2
      rw [hk] at hk2
      simp at hk2
  · simp only [h5, if_false]
    split
    · intro f hf
      simp at hf
    · intro f hf
      simp at hf

theorem reset_flush_good (cfg : Tracker.Config) (s : Tracker.State) (sid : String)
    (ts now : Nat) (succ : Bool) :
    ∀ f, (Tracker.resetSessionState cfg s sid ts now succ).2 = some f →
      Tracker.GoodFlush f := by
  unfold Tracker.resetSessionState
  dsimp only
  split
  · intro f hf
    obtain ⟨hk, _, _, _⟩ :=
      upsert_flush_fields cfg s true now succ Tracker.FlushKind.reset f hf
    exact goodFlush_of_kind_ne f (by rw [hk]; simp) (by rw [hk]; simp)
  · intro f hf
    simp at hf

theorem handleMessage_good (cfg : Tracker.Config) (s : Tracker.State)
    (m : Tracker.BusMessage) (now : Nat) (succ : Bool)
    (hInv : Tracker.InvT s) (hLB : Tracker.TimeLB s now) :
    Tracker.InvT (Tracker.handleMessage cfg s m now succ).1 ∧
    Tracker.TimeLB (Tracker.handleMessage cfg s m now succ).1 now ∧
    ∀ f ∈ (Tracker.handleMessage cfg s m now succ).2, Tracker.GoodFlush f := by
  unfold Tracker.handleMessage
  dsimp only
  set r0 := (if m.eventType == "SESSION_STARTED" then
      Tracker.resetSessionState cfg s m.sessionId m.timestamp now succ
    else (s, none)) with hr0
  have h0 : Tracker.InvT r0.1 ∧ Tracker.TimeLB r0.1 now ∧
      ∀ f, r0.2 = some f → Tracker.GoodFlush f := by
    rw [hr0]
    split
    · refine ⟨?_, ?_, ?_⟩
      · intro tf htf
        simp [Tracker.resetSessionState] at htf
      · intro L hL
        have : some now = some L := by
          simpa [Tracker.resetSessionState] using hL
        simp at this
        omega
      · exact reset_flush_good cfg s m.sessionId m.timestamp now succ
    · refine ⟨hInv, hLB, ?_⟩
      intro f hf
      simp at hf
  obtain ⟨h0I, h0L, h0G⟩ := h0
  have haI : Tracker.InvT (Tracker.addEventToLog cfg r0.1 m.eventType m.timestamp m.data) := by
    intro tf htf L hL
    rw [addEvent_timeout] at htf
    rw [addEvent_lastUpsert] at hL
    exact h0I tf htf L hL
  have haL : Tracker.TimeLB (Tracker.addEventToLog cfg r0.1 m.eventType m.timestamp m.data)
      now := by
    intro L hL
    rw [addEvent_lastUpsert] at hL
    exact h0L L hL
  split
  · refine ⟨h0I, h0L, ?_⟩
    intro f hf
    have hf2 : r0.2 = some f := by simpa using hf
    exact h0G f hf2
  · split
    · set s3 := { Tracker.addEventToLog cfg r0.1 m.eventType m.timestamp m.data with
        isSessionActive := false } with hs3
      have h3I : Tracker.InvT s3 := by
        intro tf htf L hL
        exact haI tf htf L hL
      have h3L : Tracker.TimeLB s3 now := by
        intro L hL
        exact haL L hL
      refine ⟨upsert_invT cfg s3 true now succ Tracker.FlushKind.sessionEnd h3I,
        upsert_timeLB cfg s3 true now succ Tracker.FlushKind.sessionEnd h3L, ?_⟩
      intro f hf
      have hfd : r0.2 = some f ∨ (Tracker.upsertSessionRecord cfg s3 true now succ
          Tracker.FlushKind.sessionEnd).2 = some f := by simpa using hf
      rcases hfd with hf2 | hf2
      · exact h0G f hf2
      · obtain ⟨hk, _, _, _⟩ :=
          upsert_flush_fields cfg s3 true now succ Tracker.FlushKind.sessionEnd f hf2
        exact goodFlush_of_kind_ne f (by rw [hk]; simp) (by rw [hk]; simp)
    · refine ⟨check_invT cfg _ now succ haI haL, check_timeLB cfg _ now succ haL, ?_⟩
      intro f hf
      have hfd : r0.2 = some f ∨ (Tracker.checkUpsertTriggers cfg
          (Tracker.addEventToLog cfg r0.1 m.eventType m.timestamp m.data) now succ).2
            = some f := by simpa using hf
      rcases hfd with hf2 | hf2
      · exact h0G f hf2
      · exact check_flush_good cfg _ now succ f hf2

theorem step_good (cfg : Tracker.Config) (s : Tracker.State) (inp : Tracker.Input)
    (hInv : Tracker.InvT s) (hLB : Tracker.TimeLB s (Tracker.timeOfInput inp)) :
    Tracker.InvT (Tracker.stepTracker cfg s inp).1 ∧
    Tracker.TimeLB (Tracker.stepTracker cfg s inp).1 (Tracker.timeOfInput inp) ∧
    ∀ f ∈ (Tracker.stepTracker cfg s inp).2, Tracker.GoodFlush f := by
  cases inp with
  | bus m now succ =>
    exact handleMessage_good cfg s m now succ hInv hLB
  | timerFire now succ =>
    simp only [Tracker.stepTracker]
    cases ht : s.upsertTimeout with
    | none =>
      refine ⟨hInv, hLB, ?_⟩
      intro f hf
      simp at hf
    | some tf =>
      dsimp only
      split
      · rename_i hle
        split
        · rename_i hcond
          set s1 := { s with upsertTimeout := none } with hs1
          have h1I : Tracker.InvT s1 := by
            intro tf2 htf2
            simp [hs1] at htf2
          have h1L : Tracker.TimeLB s1 now := by
            intro L hL
            exact hLB L (by simpa [hs1] using hL)
          refine ⟨upsert_invT cfg s1 false now succ Tracker.FlushKind.timeTrigger h1I,
            upsert_timeLB cfg s1 false now succ Tracker.FlushKind.timeTrigger h1L, ?_⟩
          intro f hf
          have hf3 : (Tracker.upsertSessionRecord cfg s1 false now succ
              Tracker.FlushKind.timeTrigger).2 = some f := by simpa using hf
          obtain ⟨hk, htime, hlb, _⟩ :=
            upsert_flush_fields cfg s1 false now succ Tracker.FlushKind.timeTrigger f hf3
          constructor
          · intro hk2
            rw [hk] at hk2
            simp at hk2
          · intro _ L hL
            rw [hlb] at hL
            have hL2 : s.lastUpsertTime = some L := by simpa [hs1] using hL
            have := hInv tf ht L hL2
            rw [htime]
            omega
        · refine ⟨?_, ?_, ?_⟩
          · intro tf2 htf2
            simp at htf2
          · intro L hL
            exact hLB L (by simpa using hL)
          · intro f hf
            simp at hf
      · refine ⟨hInv, hLB, ?_⟩
        intro f hf
        simp at hf
  | visibilityHidden now succ =>
    simp only [Tracker.stepTracker]
    split
    · refine ⟨upsert_invT cfg s false now succ Tracker.FlushKind.visibility hInv,
        upsert_timeLB cfg s false now succ Tracker.FlushKind.visibility hLB, ?_⟩
      intro f hf
      have hf3 : (Tracker.upsertSessionRecord cfg s false now succ
          Tracker.FlushKind.visibility).2 = some f := by simpa using hf
      obtain ⟨hk, _, _, _⟩ :=
        upsert_flush_fields cfg s false now succ Tracker.FlushKind.visibility f hf3
      exact goodFlush_of_kind_ne f (by rw [hk]; simp) (by rw [hk]; simp)
    · refine ⟨hInv, hLB, ?_⟩
      intro f hf
      simp at hf
  | teardown now succ =>
    simp only [Tracker.stepTracker]
    split
    · refine ⟨upsert_invT cfg s true now succ Tracker.FlushKind.teardown hInv,
        upsert_timeLB cfg s true now succ Tracker.FlushKind.teardown hLB, ?_⟩
      intro f hf
      have hf3 : (Tracker.upsertSessionRecord cfg s true now succ
          Tracker.FlushKind.teardown).2 = some f := by simpa using hf
      obtain ⟨hk, _, _, _⟩ :=
        upsert_flush_fields cfg s true now succ Tracker.FlushKind.teardown f hf3
      exact goodFlush_of_kind_ne f (by rw [hk]; simp) (by rw [hk]; simp)
    · refine ⟨hInv, hLB, ?_⟩
      intro f hf
      simp at hf
  | manualLog et data now succ =>
    simp only [Tracker.stepTracker]
    split
    · refine ⟨hInv, hLB, ?_⟩
      intro f hf
      simp at hf
    · have haI : Tracker.InvT (Tracker.addEventToLog cfg s et now data) := by
        intro tf htf L hL
        rw [addEvent_timeout] at htf
        rw [addEvent_lastUpsert] at hL
        exact hInv tf htf L hL
      have haL : Tracker.TimeLB (Tracker.addEventToLog cfg s et now data) now := by
        intro L hL
        rw [addEvent_lastUpsert] at hL
        exact hLB L hL
      refine ⟨check_invT cfg _ now succ haI haL, check_timeLB cfg _ now succ haL, ?_⟩
      intro f hf
      exact check_flush_good cfg _ now succ f (by simpa using hf)

theorem timeLB_mono (s : Tracker.State) (t1 t2 : Nat) (h12 : t1 ≤ t2)
    (h : Tracker.TimeLB s t1) : Tracker.TimeLB s t2 :=
  fun L hL => le_trans (h L hL) h12

theorem run_good (cfg : Tracker.Config) :
    ∀ (inputs : List Tracker.Input) (s : Tracker.State) (t0 : Nat),
      Tracker.InvT s → Tracker.TimeLB s t0 → Tracker.timesMonoB t0 inputs = true →
      ∀ f ∈ (Tracker.runTracker cfg s inputs).2, Tracker.GoodFlush f := by
  intro inputs
  induction inputs with
  | nil =>
    intro s t0 _ _ _ f hf
    simp [Tracker.runTracker] at hf
  | cons i rest ih =>
    intro s t0 hInv hLB hmono f hf
    simp only [Tracker.timesMonoB, Bool.and_eq_true] at hmono
    have ht0 : t0 ≤ Tracker.timeOfInput i := Nat.le_of_ble_eq_true hmono.1
    obtain ⟨hI, hL2, hG⟩ := step_good cfg s i hInv (timeLB_mono s t0 _ ht0 hLB)
    simp only [Tracker.runTracker, List.mem_append] at hf
    rcases hf with hf | hf
    · exact hG f hf
    · exact ih (Tracker.stepTracker cfg s i).1 (Tracker.timeOfInput i) hI hL2 hmono.2 f hf

/--
C3 (amended): along every execution of the tracker with nondecreasing input
times, every upsert is either one of the unconditional kinds - the
session-end flush, the flush-before-reset issued on session replacement,
the visibility-hidden flush or the teardown flush - or carries at least 5
logged events in its payload, or fires at least 30000 ms after the recorded
last upsert time. The count trigger compares the TOTAL accumulated log
length (the log is never cleared by a flush, only by a session reset)
against the threshold 5, so after the first count-triggered flush every
further tracked event flushes again immediately; the claim's reading
"5 unflushed events since the last flush" does not hold.
-/
theorem c3_flush_policy (cfg : Tracker.Config) (inputs : List Tracker.Input)
    (hmono : Tracker.timesMonoB 0 inputs = true) :
    ∀ f ∈ (Tracker.runTracker cfg Tracker.initialState inputs).2,
      f.kind = Tracker.FlushKind.sessionEnd ∨ f.kind = Tracker.FlushKind.reset ∨
      f.kind = Tracker.FlushKind.visibility ∨ f.kind = Tracker.FlushKind.teardown ∨
      5 ≤ f.wrapper.eventCount ∨
      (∀ L, f.lastUpsertBefore = some L → L + 30000 ≤ f.time) := by
  intro f hf
  have hg := run_good cfg inputs Tracker.initialState 0
    (by intro tf htf; simp [Tracker.initialState] at htf)
    (by intro L hL; simp [Tracker.initialState] at hL)
    hmono f hf
  cases hk : f.kind with
  | sessionEnd => exact Or.inl rfl
  | reset => exact Or.inr (Or.inl rfl)
  | visibility => exact Or.inr (Or.inr (Or.inl rfl))
  | teardown => exact Or.inr (Or.inr (Or.inr (Or.inl rfl)))
  | countTrigger => exact Or.inr (Or.inr (Or.inr (Or.inr (Or.inl (hg.1 hk)))))
  | timeTrigger => exact Or.inr (Or.inr (Or.inr (Or.inr (Or.inr (hg.2 hk)))))

/--
C3 (counterexample): with all flags on, a session accumulates 5 events and
count-flushes at t = 1004; a single further tracked event at t = 2000 -
1 event appended since the last flush, 996 ms elapsed - immediately
count-flushes again (the trigger compares the total log length, 6, against
the threshold), refuting the claim that a non-exempt flush never occurs
with fewer than 5 events accumulated since the last flush and fewer than
30 seconds elapsed.
-/
theorem c3_counterexample_sixth_event_reflushes :
    ((Tracker.runTracker cfgAllOn Tracker.initialState inputsSixEvents).2.map
        fun f => (f.kind, f.time, f.lastUpsertBefore, f.wrapper.eventCount))
      = [(Tracker.FlushKind.countTrigger, 1004, some 1000, 5),
         (Tracker.FlushKind.countTrigger, 2000, some 1004, 6)] := by decide

/-- C3 witness: the amended policy applied to the concrete six-event run. -/
theorem c3_witness :
    Tracker.timesMonoB 0 inputsSixEvents = true ∧
    ∀ f ∈ (Tracker.runTracker cfgAllOn Tracker.initialState inputsSixEvents).2,
      f.kind = Tracker.FlushKind.sessionEnd ∨ f.kind = Tracker.FlushKind.reset ∨
      f.kind = Tracker.FlushKind.visibility ∨ f.kind = Tracker.FlushKind.teardown ∨
      5 ≤ f.wrapper.eventCount ∨
      (∀ L, f.lastUpsertBefore = some L → L + 30000 ≤ f.time) :=
  ⟨by decide, c3_flush_policy cfgAllOn inputsSixEvents (by decide)⟩
